import Mathlib

/-
  Verification development for the FOOD-COST-APP repository.

  Shallow embedding of the costing and reconciliation engine:
  - types.ts                       : Unit, Ingredient, RecipeIngredient, Recipe, CostBreakdown
  - IngredientManager (part_000)   : calculateBaseCost, handleSave, parseUnit, handleFileUpload
  - App (part_001)                 : handleUpdateIngredient, handleDeleteIngredient,
                                     handleBulkAddIngredients, calculateRecipeCost
  - RecipeManager.tsx              : the draft reconciliation inside handleGenerateAI

  JavaScript numbers are modelled as rationals (ℚ); the code guards every
  division by a positivity test, so no division-by-zero behaviour is lost.
  JavaScript truthiness on strings ("" is falsy) and numbers (0 is falsy) and
  on possibly-undefined fields is modelled explicitly on Option values.
-/

namespace FoodCostApp

set_option autoImplicit false

/-- Unit enum from types.ts. -/
inductive Unit where
  | gram
  | kilogram
  | milliliter
  | liter
  | piece
  | ounce
  | pound
deriving DecidableEq

/-- Ingredient record from types.ts. -/
structure Ingredient where
  id : String
  name : String
  category : String
  purchaseUnit : Unit
  purchaseCost : ℚ
  purchaseQuantity : ℚ
  costPerBaseUnit : ℚ
deriving DecidableEq

/-- RecipeIngredient from types.ts. At runtime the reconciler stores the raw
unit string coming from the draft, so the unit label is modelled as String. -/
structure RecipeIngredient where
  ingredientId : String
  quantity : ℚ
  unit : String
deriving DecidableEq

/-- Recipe record from types.ts (imageUrl is irrelevant to costing and omitted;
instructions is optional in the source). -/
structure Recipe where
  id : String
  name : String
  description : String
  servings : ℚ
  ingredients : List RecipeIngredient
  laborCost : ℚ
  overheadPercentage : ℚ
  targetFoodCostPercentage : ℚ
  instructions : Option String
deriving DecidableEq

/-- CostBreakdown from types.ts (the optional actualPrice/currentMargin fields
are never produced by calculateRecipeCost and are omitted). -/
structure CostBreakdown where
  totalIngredientCost : ℚ
  laborCost : ℚ
  overheadCost : ℚ
  totalCost : ℚ
  costPerServing : ℚ
  suggestedPrice : ℚ
deriving DecidableEq

/-- INGREDIENT_CATEGORIES from types.ts. -/
def INGREDIENT_CATEGORIES : List String :=
  ["Meat", "Seafood", "Flours", "Dairy", "Bakery", "Condiments",
   "Vegetables", "Pasta", "Fruits", "Alcohol", "Others"]

/-- JavaScript String.prototype.toLowerCase restricted to the basic latin
range, as used by the source for ASCII ingredient names and unit tokens. -/
def strToLower (s : String) : String := ⟨s.data.map Char.toLower⟩

/-- Whitespace test for the trim model. -/
def isWS (c : Char) : Bool := c = ' ' ∨ c = '\t' ∨ c = '\n' ∨ c = '\r'

/-- JavaScript String.prototype.trim: strip leading and trailing whitespace. -/
def strTrim (s : String) : String :=
  ⟨((s.data.dropWhile isWS).reverse.dropWhile isWS).reverse⟩

/-- JavaScript truthiness of a possibly-undefined string:
undefined and the empty string are falsy. -/
def strTruthy : Option String → Bool
  | none => false
  | some s => s ≠ ""

/-- JavaScript truthiness of a possibly-undefined number: undefined and 0 are falsy. -/
def numTruthy : Option ℚ → Bool
  | none => false
  | some q => q ≠ 0

/-- JavaScript `a || b` on a possibly-undefined string vs a string default. -/
def strOr (o : Option String) (dflt : String) : String :=
  match o with
  | some s => if s = "" then dflt else s
  | none => dflt

/-- JavaScript `a || b` on two possibly-undefined strings. -/
def strOrOpt (d p : Option String) : Option String :=
  match d with
  | some s => if s = "" then p else some s
  | none => p

/-- JavaScript `a || b` on a possibly-undefined number vs a number default. -/
def numOr (o : Option ℚ) (p : ℚ) : ℚ :=
  match o with
  | some q => if q = 0 then p else q
  | none => p

/-- calculateBaseCost from IngredientManager (part_000, lines 34-42):
baseFactor is 1, overwritten to 1000 for kilogram and for liter; the result is
cost / (quantity * baseFactor) when that denominator is positive, else 0. -/
def calculateBaseCost (unit : Unit) (cost quantity : ℚ) : ℚ :=
  let baseFactor : ℚ :=
    if unit = Unit.kilogram then 1000
    else if unit = Unit.liter then 1000
    else 1
  let totalBaseUnits := quantity * baseFactor
  if totalBaseUnits > 0 then cost / totalBaseUnits else 0

/-- The form state `newIng : Partial<Ingredient>` of IngredientManager: every
field may be undefined; costPerBaseUnit may hold a stale derived value copied
in by startEdit. -/
structure IngredientForm where
  name : Option String
  category : Option String
  purchaseUnit : Unit
  purchaseCost : Option ℚ
  purchaseQuantity : Option ℚ
  costPerBaseUnit : Option ℚ
deriving DecidableEq

/-- handleSave from IngredientManager (part_000, lines 44-76): returns without
saving when the name is falsy, the cost is undefined, or the quantity is falsy;
otherwise builds the Ingredient, recomputing costPerBaseUnit from the purchase
fields (ignoring any stale form.costPerBaseUnit). isEditing carries the id of
the entry under edit; freshId stands for crypto.randomUUID(). -/
def handleSave (form : IngredientForm) (isEditing : Option String)
    (freshId : String) : Option Ingredient :=
  if strTruthy form.name = false ∨ form.purchaseCost = none ∨
      numTruthy form.purchaseQuantity = false then
    none
  else
    let quantity := form.purchaseQuantity.getD 0
    let cost := form.purchaseCost.getD 0
    let unit := form.purchaseUnit
    some
      { id := isEditing.getD freshId
        name := form.name.getD ""
        category := strOr form.category "Others"
        purchaseUnit := unit
        purchaseCost := cost
        purchaseQuantity := quantity
        costPerBaseUnit := calculateBaseCost unit cost quantity }

/-- handleUpdateIngredient from App (part_001, lines 66-68): replace every
entry whose id matches the updated ingredient's id. -/
def handleUpdateIngredient (ingredients : List Ingredient)
    (updatedIng : Ingredient) : List Ingredient :=
  ingredients.map fun i => if i.id == updatedIng.id then updatedIng else i

/-- handleDeleteIngredient from App (part_001, lines 70-78): if any recipe's
ingredient list references the id, refuse (alert) and leave the catalog
unchanged; otherwise filter the entry out. -/
def handleDeleteIngredient (recipes : List Recipe)
    (ingredients : List Ingredient) (id : String) : List Ingredient :=
  let isUsed := recipes.any fun r => r.ingredients.any fun ri => ri.ingredientId == id
  if isUsed then ingredients
  else ingredients.filter fun i => i.id ≠ id

/-- handleBulkAddIngredients from App (part_001, lines 62-64): append the
imported batch to the catalog. -/
def handleBulkAddIngredients (prev newIngredients : List Ingredient) :
    List Ingredient :=
  prev ++ newIngredients

/-- parseUnit from IngredientManager (part_000, lines 83-92): case-insensitive,
trimmed token classification, defaulting to piece. -/
def parseUnit (raw : String) : Unit :=
  let lower := strTrim (strToLower raw)
  if lower = "kg" ∨ lower = "kilogram" ∨ lower = "kgs" then Unit.kilogram
  else if lower = "g" ∨ lower = "gram" ∨ lower = "gms" then Unit.gram
  else if lower = "l" ∨ lower = "liter" ∨ lower = "litre" then Unit.liter
  else if lower = "ml" ∨ lower = "milliliter" then Unit.milliliter
  else if lower = "oz" ∨ lower = "ounce" then Unit.ounce
  else if lower = "lb" ∨ lower = "pound" ∨ lower = "lbs" then Unit.pound
  else Unit.piece

/-- One spreadsheet row after the flexible column mapping of handleFileUpload
(part_000, lines 108-120): name is the first truthy of the Name-like columns
(none when all are missing), category likewise with default handled below,
cost and qty are the parseFloat results (defaults 0 and 1), unitRaw the raw
unit cell (default "kg"). -/
structure ImportRow where
  name : Option String
  category : Option String
  cost : ℚ
  quantity : ℚ
  unitRaw : String
deriving DecidableEq

/-- Category normalization inside handleFileUpload (part_000, lines 113-115):
match against INGREDIENT_CATEGORIES case-insensitively, else keep the raw one. -/
def normalizeCategory (c : String) : String :=
  match INGREDIENT_CATEGORIES.find? (fun k => strToLower k == strToLower c) with
  | some k => k
  | none => c

/-- Validation inside handleFileUpload (part_000, line 121):
`if (name && cost > 0)` — a truthy name and a strictly positive cost. -/
def rowValid (r : ImportRow) : Bool :=
  strTruthy r.name && decide (r.cost > 0)

/-- The Ingredient built from an admitted row (part_000, lines 122-133);
id stands for crypto.randomUUID(). -/
def importRow (id : String) (r : ImportRow) : Ingredient :=
  let unit := parseUnit r.unitRaw
  { id := id
    name := r.name.getD ""
    category := normalizeCategory (strOr r.category "Others")
    purchaseUnit := unit
    purchaseCost := r.cost
    purchaseQuantity := r.quantity
    costPerBaseUnit := calculateBaseCost unit r.cost r.quantity }

/-- The parsing loop of handleFileUpload (part_000, lines 106-135): rows
failing validation are skipped, admitted rows are pushed in order. idGen
models crypto.randomUUID(). -/
def handleFileUpload (idGen : ImportRow → String) (rows : List ImportRow) :
    List Ingredient :=
  (rows.filter rowValid).map fun r => importRow (idGen r) r

/-- The ingredient-cost accumulation loop of calculateRecipeCost (part_001,
lines 97-106): sum quantity * costPerBaseUnit over lines whose ingredient id
resolves in the catalog; unresolved ids contribute nothing. -/
def totalIngredientCostOf (ingredients : List Ingredient) (recipe : Recipe) : ℚ :=
  recipe.ingredients.foldl
    (fun acc item =>
      match ingredients.find? (fun i => i.id == item.ingredientId) with
      | some ing => acc + item.quantity * ing.costPerBaseUnit
      | none => acc)
    0

/-- ingredientCostPerServing of calculateRecipeCost (part_001, line 120). -/
def ingredientCostPerServingOf (ingredients : List Ingredient) (recipe : Recipe) : ℚ :=
  if recipe.servings > 0 then totalIngredientCostOf ingredients recipe / recipe.servings
  else 0

/-- calculateRecipeCost from App (part_001, lines 96-132). -/
def calculateRecipeCost (ingredients : List Ingredient) (recipe : Recipe) :
    CostBreakdown :=
  let totalIngredientCost := totalIngredientCostOf ingredients recipe
  let overheadCost := totalIngredientCost * (recipe.overheadPercentage / 100)
  let totalCost := totalIngredientCost + recipe.laborCost + overheadCost
  let costPerServing := if recipe.servings > 0 then totalCost / recipe.servings else 0
  let ingredientCostPerServing := ingredientCostPerServingOf ingredients recipe
  let targetDecimal := recipe.targetFoodCostPercentage / 100
  let suggestedPrice :=
    if targetDecimal > 0 then ingredientCostPerServing / targetDecimal else 0
  { totalIngredientCost := totalIngredientCost
    laborCost := recipe.laborCost
    overheadCost := overheadCost
    totalCost := totalCost
    costPerServing := costPerServing
    suggestedPrice := suggestedPrice }

/-- DraftIngredientSuggestion: the external draft's ingredient shape
(services/gemini response, consumed by handleGenerateAI). -/
structure DraftIngredientSuggestion where
  name : String
  quantity : ℚ
  unit : String
deriving DecidableEq

/-- The draft object consumed by handleGenerateAI (RecipeManager.tsx). -/
structure RecipeDraft where
  description : Option String
  servings : Option ℚ
  instructions : Option String
  ingredients : List DraftIngredientSuggestion
deriving DecidableEq

/-- The quantity rebase inside handleGenerateAI (RecipeManager.tsx, lines
62-64): two successive case-sensitive string comparisons against the exact
tokens "kg" and "l", each multiplying by 1000 when equal. -/
def rebaseQuantity (unit : String) (quantity : ℚ) : ℚ :=
  let qty := if unit == "kg" then quantity * 1000 else quantity
  if unit == "l" then qty * 1000 else qty

/-- Matching of one suggestion against the catalog (RecipeManager.tsx, lines
57-76): first exact case-insensitive name match wins; a match emits a
RecipeIngredient with the matched id, the rebased quantity and the original
unit label; an unmatched suggestion is dropped. -/
def reconcileSuggestion (ingredients : List Ingredient)
    (suggested : DraftIngredientSuggestion) : Option RecipeIngredient :=
  match ingredients.find? (fun i => strToLower i.name == strToLower suggested.name) with
  | some m =>
      some { ingredientId := m.id
             quantity := rebaseQuantity suggested.unit suggested.quantity
             unit := suggested.unit }
  | none => none

/-- The newIngredients accumulation of handleGenerateAI: matched lines in
draft order, unmatched suggestions dropped. -/
def reconcileIngredients (ingredients : List Ingredient)
    (suggestions : List DraftIngredientSuggestion) : List RecipeIngredient :=
  suggestions.filterMap (reconcileSuggestion ingredients)

/-- The recipe merge of handleGenerateAI (RecipeManager.tsx, lines 78-87):
draft description / instructions / servings overwrite only when truthy, and
the ingredient list is replaced only when at least one matched line exists. -/
def reconcileRecipe (prev : Recipe) (draft : RecipeDraft)
    (ingredients : List Ingredient) : Recipe :=
  let newIngredients := reconcileIngredients ingredients draft.ingredients
  { prev with
    description := strOr draft.description prev.description
    instructions := strOrOpt draft.instructions prev.instructions
    servings := numOr draft.servings prev.servings
    ingredients := if newIngredients.length > 0 then newIngredients else prev.ingredients }

/-- Concrete catalog entry for the scenarios: 1 kilogram of flour bought for
18000, its derived cost computed by the normalizer exactly as catalog add does. -/
def apFlour : Ingredient :=
  { id := "1"
    name := "All-Purpose Flour"
    category := "Flours"
    purchaseUnit := Unit.kilogram
    purchaseCost := 18000
    purchaseQuantity := 1
    costPerBaseUnit := calculateBaseCost Unit.kilogram 18000 1 }

/-- Concrete recipe for the C1 scenario: one line of 250 (grams) of the flour,
laborCost 0, overhead 0, servings 1, target 30. -/
def c1Recipe : Recipe :=
  { id := "r1"
    name := "Flour Only"
    description := ""
    servings := 1
    ingredients := [{ ingredientId := "1", quantity := 250, unit := "g" }]
    laborCost := 0
    overheadPercentage := 0
    targetFoodCostPercentage := 30
    instructions := none }

/-- Form state for the C3 scenario: the purchase fields describe 1 kg for
18000, while costPerBaseUnit still holds a stale derived value 999. -/
def c3Form : IngredientForm :=
  { name := some "Flour"
    category := some "Flours"
    purchaseUnit := Unit.kilogram
    purchaseCost := some 18000
    purchaseQuantity := some 1
    costPerBaseUnit := some 999 }

/-- The ingredient handleSave builds from c3Form when editing entry "1". -/
def c3Saved : Ingredient :=
  { id := "1"
    name := "Flour"
    category := "Flours"
    purchaseUnit := Unit.kilogram
    purchaseCost := 18000
    purchaseQuantity := 1
    costPerBaseUnit := calculateBaseCost Unit.kilogram 18000 1 }

/-- Draft suggestion for the C5 scenario. -/
def c5Sug : DraftIngredientSuggestion :=
  { name := "All-Purpose Flour", quantity := 0.5, unit := "kg" }

/-- Draft for the C6 witness: its single suggestion matches nothing in a
catalog holding only apFlour. -/
def c6Draft : RecipeDraft :=
  { description := some "generated"
    servings := some 2
    instructions := none
    ingredients := [{ name := "Unobtainium", quantity := 1, unit := "g" }] }

/-- Ten import rows for the C8 scenario; exactly the two rows with cost 0
fail validation. -/
def c8Rows : List ImportRow :=
  [ { name := some "Flour", category := some "Flours", cost := 18000, quantity := 1, unitRaw := "kg" },
    { name := some "Sugar", category := none, cost := 15000, quantity := 1, unitRaw := "kg" },
    { name := some "Salt", category := none, cost := 0, quantity := 1, unitRaw := "kg" },
    { name := some "Milk", category := some "Dairy", cost := 28000, quantity := 1, unitRaw := "l" },
    { name := some "Eggs", category := none, cost := 65000, quantity := 30, unitRaw := "pc" },
    { name := some "Beef", category := some "Meat", cost := 140000, quantity := 1, unitRaw := "kg" },
    { name := some "Oil", category := none, cost := 0, quantity := 1, unitRaw := "l" },
    { name := some "Tomato", category := some "Vegetables", cost := 15000, quantity := 1, unitRaw := "kg" },
    { name := some "Butter", category := some "Dairy", cost := 50000, quantity := 500, unitRaw := "g" },
    { name := some "Cheese", category := some "Dairy", cost := 90000, quantity := 1, unitRaw := "kg" } ]

/-- The suggestedPrice field of calculateRecipeCost, unfolded
(definitional). -/
lemma suggestedPrice_def (ings : List Ingredient) (r : Recipe) :
    (calculateRecipeCost ings r).suggestedPrice =
      if r.targetFoodCostPercentage / 100 > 0 then
        ingredientCostPerServingOf ings r / (r.targetFoodCostPercentage / 100)
      else 0 := rfl

/-- Claim C1: for the catalog entry bought as 1 kilogram for 18000, the
normalizer yields 18 per gram; the recipe with that single 250-gram line,
laborCost 0, overhead 0, servings 1 and target 30 costs 4500 in ingredients,
4500 in total, 4500 per serving, and is priced at 15000 — and in general
overheadCost and totalCost follow the stated aggregation formulas. -/
theorem claim_C1 :
    calculateBaseCost Unit.kilogram 18000 1 = 18 ∧
    (calculateRecipeCost [apFlour] c1Recipe).totalIngredientCost = 4500 ∧
    (calculateRecipeCost [apFlour] c1Recipe).totalCost = 4500 ∧
    (calculateRecipeCost [apFlour] c1Recipe).costPerServing = 4500 ∧
    (calculateRecipeCost [apFlour] c1Recipe).suggestedPrice = 15000 ∧
    (∀ (ings : List Ingredient) (r : Recipe),
      (calculateRecipeCost ings r).overheadCost =
        (calculateRecipeCost ings r).totalIngredientCost * (r.overheadPercentage / 100)) ∧
    (∀ (ings : List Ingredient) (r : Recipe),
      (calculateRecipeCost ings r).totalCost =
        (calculateRecipeCost ings r).totalIngredientCost + r.laborCost +
          (calculateRecipeCost ings r).overheadCost) := by
  refine ⟨?_, ?_, ?_, ?_, ?_, fun _ _ => rfl, fun _ _ => rfl⟩ <;>
    norm_num [calculateRecipeCost, totalIngredientCostOf, ingredientCostPerServingOf,
      apFlour, c1Recipe, calculateBaseCost, List.foldl, List.find?]

/-- Claim C2: for every unit, cost C ≥ 0 and quantity Q > 0, the normalizer
returns C / (Q * factor), with factor 1000 for kilogram and liter and factor
1 for gram, milliliter, piece, ounce and pound. -/
theorem claim_C2 (C Q : ℚ) (hC : 0 ≤ C) (hQ : 0 < Q) :
    calculateBaseCost Unit.gram C Q = C / (Q * 1) ∧
    calculateBaseCost Unit.kilogram C Q = C / (Q * 1000) ∧
    calculateBaseCost Unit.milliliter C Q = C / (Q * 1) ∧
    calculateBaseCost Unit.liter C Q = C / (Q * 1000) ∧
    calculateBaseCost Unit.piece C Q = C / (Q * 1) ∧
    calculateBaseCost Unit.ounce C Q = C / (Q * 1) ∧
    calculateBaseCost Unit.pound C Q = C / (Q * 1) := by
  refine ⟨?_, ?_, ?_, ?_, ?_, ?_, ?_⟩ <;>
    · simp [calculateBaseCost]
      intro h
      linarith

/-- Witness for claim C2 at unit kilogram, cost 18000, quantity 1. -/
theorem claim_C2_witness :
    calculateBaseCost Unit.kilogram 18000 1 = 18000 / (1 * 1000) :=
  (claim_C2 18000 1 (by norm_num) (by norm_num)).2.1

/-- Claim C3: an ingredient saved through the edit form and pushed through the
catalog update replaces every stored entry with the matching id, and that
stored entry's costPerBaseUnit equals the normalizer applied to its own
purchase fields, regardless of any stale derived value left in the form. -/
theorem claim_C3 (form : IngredientForm) (editingId freshId : String)
    (catalog : List Ingredient) (ing : Ingredient)
    (hsave : handleSave form (some editingId) freshId = some ing) :
    ∀ j ∈ handleUpdateIngredient catalog ing, j.id = ing.id →
      j.costPerBaseUnit =
        calculateBaseCost j.purchaseUnit j.purchaseCost j.purchaseQuantity := by
  have hcpb : ing.costPerBaseUnit =
      calculateBaseCost ing.purchaseUnit ing.purchaseCost ing.purchaseQuantity := by
    unfold handleSave at hsave
    split at hsave
    · exact Option.noConfusion hsave
    · rw [Option.some_inj] at hsave
      subst hsave
      rfl
  intro j hj hid
  simp only [handleUpdateIngredient, List.mem_map] at hj
  obtain ⟨i, _hi, rfl⟩ := hj
  by_cases hcase : (i.id == ing.id) = true
  · rw [if_pos hcase] at hid ⊢
    exact hcpb
  · rw [if_neg hcase] at hid
    exact absurd (beq_iff_eq.mpr hid) hcase

/-- Witness for claim C3: saving c3Form (stale costPerBaseUnit 999) over entry
"1" and updating a catalog leaves the stored entry's costPerBaseUnit equal to
the recomputed value. -/
theorem claim_C3_witness :
    c3Saved.costPerBaseUnit =
      calculateBaseCost c3Saved.purchaseUnit c3Saved.purchaseCost c3Saved.purchaseQuantity :=
  claim_C3 c3Form "1" "fresh" [c3Saved] c3Saved rfl c3Saved
    (by simp [handleUpdateIngredient]) rfl

/-- Claim C4: deleting an ingredient id referenced by some recipe's ingredient
list is refused and mutates nothing; deleting an unreferenced id filters the
entry with that id out of the catalog. -/
theorem claim_C4 (recipes : List Recipe) (ingredients : List Ingredient) (id : String) :
    ((∃ r ∈ recipes, ∃ ri ∈ r.ingredients, ri.ingredientId = id) →
        handleDeleteIngredient recipes ingredients id = ingredients) ∧
    ((¬ ∃ r ∈ recipes, ∃ ri ∈ r.ingredients, ri.ingredientId = id) →
        handleDeleteIngredient recipes ingredients id =
            ingredients.filter (fun i => i.id ≠ id) ∧
          ∀ j ∈ handleDeleteIngredient recipes ingredients id, j.id ≠ id) := by
  have hiff :
      (recipes.any fun r => r.ingredients.any fun ri => ri.ingredientId == id) = true ↔
        ∃ r ∈ recipes, ∃ ri ∈ r.ingredients, ri.ingredientId = id := by
    simp [List.any_eq_true]
  constructor
  · intro h
    simp only [handleDeleteIngredient]
    rw [if_pos (hiff.mpr h)]
  · intro h
    have hfalse :
        ¬ (recipes.any fun r => r.ingredients.any fun ri => ri.ingredientId == id) = true :=
      fun hc => h (hiff.mp hc)
    have hres : handleDeleteIngredient recipes ingredients id =
        ingredients.filter (fun i => i.id ≠ id) := by
      simp only [handleDeleteIngredient]
      rw [if_neg hfalse]
    refine ⟨hres, ?_⟩
    intro j hj
    rw [hres] at hj
    exact of_decide_eq_true (List.mem_filter.mp hj).2

/-- Witness for claim C4: deleting "1", referenced by c1Recipe, leaves the
catalog untouched; deleting the unreferenced "zzz" filters the catalog. -/
theorem claim_C4_witness :
    handleDeleteIngredient [c1Recipe] [apFlour] "1" = [apFlour] ∧
    handleDeleteIngredient [c1Recipe] [apFlour] "zzz" =
      List.filter (fun i => i.id ≠ "zzz") [apFlour] := by
  constructor
  · exact (claim_C4 [c1Recipe] [apFlour] "1").1 (by decide)
  · exact ((claim_C4 [c1Recipe] [apFlour] "zzz").2 (by decide)).1

/-- Claim C5: a suggestion whose name matches a catalog name case-insensitively
is emitted as a RecipeIngredient referencing the matched id, with quantity
multiplied by 1000 exactly for unit tokens "kg" and "l" and carried through
unchanged otherwise, keeping the original unit label; in particular the
0.5 kg All-Purpose Flour suggestion is emitted with quantity 500. -/
theorem claim_C5 (ings : List Ingredient) (s : DraftIngredientSuggestion) (m : Ingredient)
    (hfind : ings.find? (fun i => strToLower i.name == strToLower s.name) = some m) :
    reconcileSuggestion ings s =
        some { ingredientId := m.id
               quantity := rebaseQuantity s.unit s.quantity
               unit := s.unit } ∧
    (s.unit = "kg" → rebaseQuantity s.unit s.quantity = s.quantity * 1000) ∧
    (s.unit = "l" → rebaseQuantity s.unit s.quantity = s.quantity * 1000) ∧
    (s.unit ≠ "kg" → s.unit ≠ "l" → rebaseQuantity s.unit s.quantity = s.quantity) ∧
    reconcileSuggestion [apFlour] c5Sug =
      some { ingredientId := "1", quantity := 500, unit := "kg" } := by
  have hkgl : (("kg" : String) == "l") = false := by decide
  refine ⟨?_, ?_, ?_, ?_, ?_⟩
  · simp only [reconcileSuggestion, hfind]
  · intro hkg
    rw [hkg]
    simp [rebaseQuantity, hkgl]
  · intro hl
    rw [hl]
    simp [rebaseQuantity]
  · intro hkg hl
    simp [rebaseQuantity, hkg, hl]
  · have h500 : rebaseQuantity "kg" 0.5 = 500 := by
      simp [rebaseQuantity, hkgl]
      norm_num
    simp [reconcileSuggestion, List.find?, apFlour, c5Sug, h500]

/-- Witness for claim C5: matching the 0.5 kg All-Purpose Flour suggestion
against the catalog holding that exact name. -/
theorem claim_C5_witness :
    reconcileSuggestion [apFlour] c5Sug =
      some { ingredientId := apFlour.id
             quantity := rebaseQuantity c5Sug.unit c5Sug.quantity
             unit := c5Sug.unit } :=
  (claim_C5 [apFlour] c5Sug apFlour (by simp [List.find?, apFlour, c5Sug])).1

/-- Claim C6: a draft none of whose suggestion names matches any catalog name
leaves the recipe's prior ingredient list unchanged; the list is replaced
wholesale only when the reconciler produced at least one matched line. -/
theorem claim_C6 (prev : Recipe) (draft : RecipeDraft) (ings : List Ingredient) :
    ((∀ s ∈ draft.ingredients,
        ings.find? (fun i => strToLower i.name == strToLower s.name) = none) →
      (reconcileRecipe prev draft ings).ingredients = prev.ingredients) ∧
    (reconcileIngredients ings draft.ingredients ≠ [] →
      (reconcileRecipe prev draft ings).ingredients =
        reconcileIngredients ings draft.ingredients) := by
  constructor
  · intro h
    have hnil : reconcileIngredients ings draft.ingredients = [] := by
      simp only [reconcileIngredients]
      rw [List.filterMap_eq_nil_iff]
      intro s hs
      simp only [reconcileSuggestion, h s hs]
    simp only [reconcileRecipe, hnil]
    rfl
  · intro h
    simp only [reconcileRecipe]
    rw [if_pos (by simpa [List.length_pos] using h)]

/-- Witness for claim C6: the all-unmatched draft c6Draft against the catalog
holding only apFlour leaves c1Recipe's ingredient list unchanged. -/
theorem claim_C6_witness :
    (reconcileRecipe c1Recipe c6Draft [apFlour]).ingredients = c1Recipe.ingredients :=
  (claim_C6 c1Recipe c6Draft [apFlour]).1 (by decide)

/-- Claim C7: a zero purchase quantity yields costPerBaseUnit 0 for every unit
and every cost, rather than a division error. -/
theorem claim_C7 (u : Unit) (C : ℚ) : calculateBaseCost u C 0 = 0 := by
  cases u <;> simp [calculateBaseCost]

/-- Claim C8: bulk import admits exactly the rows with a truthy name and cost
strictly greater than 0 — the admitted count is the count of valid rows — and
the concrete batch of 10 rows with 2 zero-cost rows yields 8 admitted. -/
theorem claim_C8 :
    (∀ (idGen : ImportRow → String) (rows : List ImportRow),
        (handleFileUpload idGen rows).length = (rows.filter rowValid).length) ∧
    (handleFileUpload (fun _ => "") c8Rows).length = 8 := by
  constructor
  · intro idGen rows
    simp [handleFileUpload]
  · decide

/-- Claim C9: with the catalog and the rest of the recipe fixed and a positive
ingredient cost per serving, the suggested price is strictly decreasing in the
target food-cost percentage over positive targets. -/
theorem claim_C9 (ings : List Ingredient) (r : Recipe) (t1 t2 : ℚ)
    (h1 : 0 < t1) (h12 : t1 < t2)
    (hpos : 0 < ingredientCostPerServingOf ings r) :
    (calculateRecipeCost ings { r with targetFoodCostPercentage := t2 }).suggestedPrice <
      (calculateRecipeCost ings { r with targetFoodCostPercentage := t1 }).suggestedPrice := by
  have key : ∀ t : ℚ, 0 < t →
      (calculateRecipeCost ings { r with targetFoodCostPercentage := t }).suggestedPrice =
        ingredientCostPerServingOf ings r / (t / 100) := by
    intro t ht
    rw [suggestedPrice_def]
    rw [if_pos (by positivity)]
    rfl
  rw [key t1 h1, key t2 (h1.trans h12)]
  exact div_lt_div_of_pos_left hpos (by positivity) (by linarith)

/-- Witness for claim C9: raising the target from 30 to 40 on the C1 scenario
strictly lowers the suggested price. -/
theorem claim_C9_witness :
    (calculateRecipeCost [apFlour] { c1Recipe with targetFoodCostPercentage := 40 }).suggestedPrice <
      (calculateRecipeCost [apFlour] { c1Recipe with targetFoodCostPercentage := 30 }).suggestedPrice :=
  claim_C9 [apFlour] c1Recipe 30 40 (by norm_num) (by norm_num)
    (by norm_num [ingredientCostPerServingOf, totalIngredientCostOf,
      apFlour, c1Recipe, calculateBaseCost, List.foldl, List.find?])

/-- Claim C10: the reconciler's rebase is decided by case-sensitive equality
with the exact tokens "kg" and "l": those multiply by 1000, while variants
like "KG", "Kg", "kgs", "L", "liter", "kilogram" pass through unchanged even
though parseUnit classifies them case-insensitively. -/
theorem claim_C10 (q : ℚ) (u : String) :
    (u ≠ "kg" → u ≠ "l" → rebaseQuantity u q = q) ∧
    rebaseQuantity "kg" q = q * 1000 ∧
    rebaseQuantity "l" q = q * 1000 ∧
    rebaseQuantity "KG" q = q ∧
    rebaseQuantity "Kg" q = q ∧
    rebaseQuantity "kgs" q = q ∧
    rebaseQuantity "L" q = q ∧
    rebaseQuantity "liter" q = q ∧
    rebaseQuantity "kilogram" q = q ∧
    parseUnit "KG" = Unit.kilogram ∧
    parseUnit "Kg" = Unit.kilogram ∧
    parseUnit "kgs" = Unit.kilogram ∧
    parseUnit "kilogram" = Unit.kilogram ∧
    parseUnit "L" = Unit.liter ∧
    parseUnit "liter" = Unit.liter := by
  refine ⟨?_, ?_, ?_, ?_, ?_, ?_, ?_, ?_, ?_, ?_, ?_, ?_, ?_, ?_, ?_⟩
  · intro hkg hl
    simp [rebaseQuantity, hkg, hl]
  all_goals first
    | (simp [rebaseQuantity])
    | decide

/-- Witness for claim C10: the token "KG" does not trigger the rebase. -/
theorem claim_C10_witness : rebaseQuantity "KG" 7 = 7 :=
  (claim_C10 7 "KG").1 (by decide) (by decide)

end FoodCostApp
